import Mathlib

/-!
Shallow embedding of the Scada-Replica repository (three Python services:
`rtu_outstation.py` — telemetry generator + outstation agent,
`scada_master.py` — master coordinator with REST API,
`data_logger.py` — monitoring/logger service).

Floating-point values are modelled as rationals (ℚ); the random draws of
`random.uniform` are universally quantified parameters; timestamps
(`datetime.now()`) are opaque naturals passed in; file contents are lists
passed in (a line that fails `json.loads` is modelled as `none`).
-/

/-- Clamping as written in the source:
`max(self.min_v, min(self.max_v, self.v))`. -/
def clamp (lo hi x : ℚ) : ℚ := max lo (min hi x)

/-- The configured per-field ranges of `TransformerSimulator.__init__`. -/
structure Ranges where
  min_voltage : ℚ
  max_voltage : ℚ
  min_current : ℚ
  max_current : ℚ
  min_freq : ℚ
  max_freq : ℚ
  min_temp : ℚ
  max_temp : ℚ
deriving DecidableEq

/-- The mutable physical state of a `TransformerSimulator`
(`self.voltage`, `self.current`, `self.frequency`, `self.temperature`). -/
structure SimState where
  voltage : ℚ
  current : ℚ
  frequency : ℚ
  temperature : ℚ
deriving DecidableEq

/-- One tick's four `random.uniform` draws in `get_measurements`
(`random.uniform(-0.5, 0.5)` for voltage, `(-5, 5)` for current,
`(-0.02, 0.02)` for frequency, `(-0.3, 0.3)` for temperature). -/
structure Perturb where
  dv : ℚ
  di : ℚ
  df : ℚ
  dt : ℚ
deriving DecidableEq

/-- Round-half-to-even on a rational, the tie rule of Python's `round`. -/
def rndHalfEven (x : ℚ) : ℤ :=
  if x - ⌊x⌋ < 1/2 then ⌊x⌋
  else if 1/2 < x - ⌊x⌋ then ⌊x⌋ + 1
  else if ⌊x⌋ % 2 = 0 then ⌊x⌋ else ⌊x⌋ + 1

/-- Python's `round(x, ndigits)` (idealized over ℚ). -/
def pyRound (ndigits : ℕ) (x : ℚ) : ℚ :=
  (rndHalfEven (x * 10 ^ ndigits) : ℚ) / 10 ^ ndigits

/-- `apparent_power = (self.voltage * self.current * 3) / 1000` (3-phase, kVA). -/
def apparent_power (v i : ℚ) : ℚ := v * i * 3 / 1000

/-- `real_power = apparent_power * power_factor` with `power_factor = 0.95` (kW). -/
def real_power (v i : ℚ) : ℚ := apparent_power v i * (95 / 100)

/-- The radicand of the source's
`reactive_power = (apparent_power ** 2 - real_power ** 2) ** 0.5`;
the square root itself is irrational, so it is taken in ℝ in the theorems. -/
def reactive_radicand (v i : ℚ) : ℚ :=
  (apparent_power v i) ^ 2 - (real_power v i) ^ 2

/-- The dict returned by `TransformerSimulator.get_measurements` (its
`reactive_power_kvar` entry, an irrational square root, is treated
separately in ℝ; `timestamp` is an opaque field supplied by the caller's
clock and is not modelled inside the record). -/
structure Measurement where
  rtu_id : ℕ
  voltage : ℚ
  current : ℚ
  frequency : ℚ
  temperature : ℚ
  real_power_kw : ℚ
  apparent_power_kva : ℚ
  power_factor : ℚ
  load_percentage : ℚ
  status : String
deriving DecidableEq

namespace TransformerSimulator

/-- `TransformerSimulator.__init__`: the four `random.uniform(min, max)` draws
become the initial field values. -/
def init (v i f t : ℚ) : SimState :=
  { voltage := v, current := i, frequency := f, temperature := t }

/-- `TransformerSimulator.get_measurements`: perturb each field by its draw,
clamp it back into range, store the clamped (unrounded) value, and emit a
measurement whose physical fields are rounded (2 decimals, 3 for frequency). -/
def get_measurements (r : Ranges) (rtu_id : ℕ) (s : SimState) (p : Perturb) :
    Measurement × SimState :=
  let v := clamp r.min_voltage r.max_voltage (s.voltage + p.dv)
  let i := clamp r.min_current r.max_current (s.current + p.di)
  let f := clamp r.min_freq r.max_freq (s.frequency + p.df)
  let t := clamp r.min_temp r.max_temp (s.temperature + p.dt)
  ({ rtu_id := rtu_id
     voltage := pyRound 2 v
     current := pyRound 2 i
     frequency := pyRound 3 f
     temperature := pyRound 2 t
     real_power_kw := pyRound 2 (real_power v i)
     apparent_power_kva := pyRound 2 (apparent_power v i)
     power_factor := 95 / 100
     load_percentage := pyRound 2 (i / r.max_current * 100)
     status := if t < 80 then "NORMAL" else "WARNING" },
   { voltage := v, current := i, frequency := f, temperature := t })

/-- A run of the generator: one `get_measurements` call per tick, feeding the
stored (unrounded) state into the next tick. -/
def run (r : Ranges) (rtu_id : ℕ) (s0 : SimState) (ps : List Perturb) : SimState :=
  ps.foldl (fun s p => (get_measurements r rtu_id s p).2) s0

end TransformerSimulator

/-- Every field of a `SimState` lies within its configured range. -/
def InRange (r : Ranges) (s : SimState) : Prop :=
  r.min_voltage ≤ s.voltage ∧ s.voltage ≤ r.max_voltage ∧
  r.min_current ≤ s.current ∧ s.current ≤ r.max_current ∧
  r.min_freq ≤ s.frequency ∧ s.frequency ≤ r.max_freq ∧
  r.min_temp ≤ s.temperature ∧ s.temperature ≤ r.max_temp

instance (r : Ranges) (s : SimState) : Decidable (InRange r s) := by
  unfold InRange; infer_instance

/-- The environment-default ranges of `rtu_outstation.main`
(380/420 V, 100/800 A, 59.8/60.2 Hz, 20/85 °C). -/
def defaultRanges : Ranges :=
  { min_voltage := 380, max_voltage := 420
    min_current := 100, max_current := 800
    min_freq := 299/5, max_freq := 301/5
    min_temp := 20, max_temp := 85 }

/-- The bounded-retention pattern shared verbatim by
`DNP3OutstationRTU.update_measurements` (cap 100) and
`SCADAMasterServer.read_measurements_from_log` (cap 1000):
`h.append(x); if len(h) > cap: h = h[-cap:]`. -/
def boundedAppend (cap : ℕ) (h : List β) (x : β) : List β :=
  let h2 := h ++ [x]
  if cap < h2.length then h2.drop (h2.length - cap) else h2

/-- State of a `DNP3OutstationRTU` agent: the simulator state, the in-memory
ring `self.measurement_history`, and the per-device append-only log file
(the byte sink `rtu_<id>_measurements.json`, one record per line). -/
structure AgentState where
  sim : SimState
  measurement_history : List Measurement
  log : List Measurement
deriving DecidableEq

namespace DNP3OutstationRTU

/-- `DNP3OutstationRTU.__init__`: fresh simulator state,
`self.measurement_history = []`; the log models only this process's
appends, so it starts empty. -/
def init (sim : SimState) : AgentState :=
  { sim := sim, measurement_history := [], log := [] }

/-- `DNP3OutstationRTU.update_measurements`: one generator tick, append the
measurement to the in-memory ring (keeping only the last 100), and append
it to the log file. -/
def update_measurements (r : Ranges) (rtu_id : ℕ) (p : Perturb)
    (st : AgentState) : Measurement × AgentState :=
  let ms := TransformerSimulator.get_measurements r rtu_id st.sim p
  (ms.1,
   { sim := ms.2
     measurement_history := boundedAppend 100 st.measurement_history ms.1
     log := st.log ++ [ms.1] })

/-- A run of the agent's measurement loop: one `update_measurements` per tick. -/
def loopRun (r : Ranges) (rtu_id : ℕ) (st : AgentState) (ps : List Perturb) :
    AgentState :=
  ps.foldl (fun st p => (update_measurements r rtu_id p st).2) st

/-- Observable effect of `DNP3OutstationRTU.start` on the agent's control
state: it sets `self.running = True`, starts the (real or mock) outstation,
and unconditionally creates and starts a new measurement `Thread`; the count
of measurement loops spawned so far is modelled explicitly. -/
structure RunState where
  running : Bool
  outstation_running : Bool
  loop_count : ℕ
deriving DecidableEq

/-- `DNP3OutstationRTU.start`: `self.running = True`, `self.outstation.start()`,
then `Thread(target=self._measurement_loop, daemon=True).start()` — a new
loop thread is spawned on every call. -/
def start (st : RunState) : RunState :=
  { running := true, outstation_running := true, loop_count := st.loop_count + 1 }

end DNP3OutstationRTU

/-! ## Master coordinator (`scada_master.py`) -/

/-- Connection status strings used by the coordinator. -/
inductive ConnStatus
  | DISCONNECTED
  | CONNECTED
  | ERROR
deriving DecidableEq

/-- One entry of `self.outstations` (static configuration plus the mutable
`connection_status` field). -/
structure OutstationConfig where
  name : String
  host : String
  port : ℕ
  address : ℕ
  connection_status : ConnStatus
deriving DecidableEq

/-- Python-dict lookup on an insertion-ordered association list. -/
def lookupAssoc (l : List (ℕ × β)) (k : ℕ) : Option β :=
  match l with
  | [] => none
  | (k', v) :: rest => if k' = k then some v else lookupAssoc rest k

/-- `defaultdict`-style read: the stored list, or `[]` when absent. -/
def getAssocD (l : List (ℕ × List β)) (k : ℕ) : List β :=
  (lookupAssoc l k).getD []

/-- Python-dict assignment `d[k] = v`: replace in place if the key exists,
otherwise append (insertion order preserved). -/
def setAssoc (l : List (ℕ × β)) (k : ℕ) (v : β) : List (ℕ × β) :=
  match l with
  | [] => [(k, v)]
  | (k', v') :: rest =>
      if k' = k then (k, v) :: rest else (k', v') :: setAssoc rest k v

/-- State owned by a `SCADAMasterServer`: the outstation registry, the
per-outstation measurement histories (`defaultdict(list)`), and the
last-update map. Samples are opaque JSON payloads, hence a type parameter. -/
structure MasterState (α : Type) where
  master_id : ℕ
  outstations : List (ℕ × OutstationConfig)
  measurement_data : List (ℕ × List α)
  last_update : List (ℕ × ℕ)
deriving DecidableEq

namespace SCADAMasterServer

/-- `SCADAMasterServer.__init__` + `_configure_outstations` with the
environment defaults: two statically configured outstations, both initially
`DISCONNECTED`, empty histories and last-update map. -/
def initial (α : Type) : MasterState α :=
  { master_id := 1
    outstations :=
      [(1, { name := "Substation_1", host := "rtu-substation-1", port := 20000,
             address := 10, connection_status := ConnStatus.DISCONNECTED }),
       (2, { name := "Substation_2", host := "rtu-substation-2", port := 20001,
             address := 11, connection_status := ConnStatus.DISCONNECTED })]
    measurement_data := []
    last_update := [] }

/-- `SCADAMasterServer.poll_outstations`: for every configured outstation the
`try` body only logs, sets `connection_status = 'CONNECTED'` and records
`last_update[id] = datetime.now()`; nothing in the body can raise, so the
`except` branch (which would set `'ERROR'`) has no counterpart here.
Dict keys are unique, so the per-key assignments amount to a map over the
registry; `now` stands for the clock readings of this call. -/
def poll_outstations (now : ℕ) (st : MasterState α) : MasterState α :=
  { st with
    outstations := st.outstations.map
      (fun idc => (idc.1, { idc.2 with connection_status := ConnStatus.CONNECTED }))
    last_update := st.outstations.foldl
      (fun lu idc => setAssoc lu idc.1 now) st.last_update }

/-- `SCADAMasterServer.read_measurements_from_log`: read the RTU's log file;
if it is missing or empty return `None`; otherwise parse the last line
(`json.loads(lines[-1])`) — a parse failure raises and is caught, returning
`None` with no append — and on success append it to that outstation's
bounded history (keeping the last 1000) and return it. A line is `none`
when `json.loads` would fail on it. -/
def read_measurements_from_log (st : MasterState α)
    (logFile : List (Option α)) (rtu_id : ℕ) : Option α × MasterState α :=
  match logFile.getLast? with
  | none => (none, st)
  | some none => (none, st)
  | some (some latest) =>
      (some latest,
       { st with measurement_data :=
          (setAssoc st.measurement_data rtu_id
            (boundedAppend 1000 (getAssocD st.measurement_data rtu_id) latest)) })

end SCADAMasterServer

/-- The last line of a log file when it parses, `None` otherwise — the value
`read_measurements_from_log` returns. -/
def latestLine (logFile : List (Option α)) : Option α :=
  match logFile.getLast? with
  | some (some x) => some x
  | _ => none

/-- One status entry built by `SCADAMasterServer.get_current_status` for an
outstation. -/
structure StatusEntry (α : Type) where
  name : String
  host : String
  port : ℕ
  connection_status : ConnStatus
  last_update : Option ℕ
  latest_measurement : Option α
deriving DecidableEq

/-- The aggregate snapshot returned by `get_current_status`. -/
structure StatusResponse (α : Type) where
  master_id : ℕ
  timestamp : ℕ
  outstations : List (ℕ × StatusEntry α)
deriving DecidableEq

namespace SCADAMasterServer

/-- The loop body of `get_current_status`: for each configured outstation,
call `read_measurements_from_log` (which mutates `measurement_data`), then
build its status block from the config, `last_update.get(rtu_id)` and the
returned measurement. `logs` maps each RTU id to its log-file contents. -/
def statusFold (logs : ℕ → List (Option α)) :
    List (ℕ × OutstationConfig) → MasterState α →
    List (ℕ × StatusEntry α) × MasterState α
  | [], st => ([], st)
  | (id, c) :: rest, st =>
      let ms := read_measurements_from_log st (logs id) id
      let entry : StatusEntry α :=
        { name := c.name, host := c.host, port := c.port
          connection_status := c.connection_status
          last_update := lookupAssoc ms.2.last_update id
          latest_measurement := ms.1 }
      let tail := statusFold logs rest ms.2
      ((id, entry) :: tail.1, tail.2)

/-- `SCADAMasterServer.get_current_status`: iterate the registry, reading the
latest measurement for each outstation (a state-mutating call), and assemble
the snapshot. -/
def get_current_status (now : ℕ) (logs : ℕ → List (Option α))
    (st : MasterState α) : StatusResponse α × MasterState α :=
  let es := statusFold logs st.outstations st
  ({ master_id := st.master_id, timestamp := now, outstations := es.1 }, es.2)

/-- `SCADAMasterServer.start`: `self.running = True`, then unconditionally
spawn a new polling `Thread`; the count of polling loops spawned so far is
modelled explicitly. -/
structure ServerRunState where
  running : Bool
  loop_count : ℕ
deriving DecidableEq

/-- `SCADAMasterServer.start` on the modelled control state. -/
def start (st : ServerRunState) : ServerRunState :=
  { running := true, loop_count := st.loop_count + 1 }

end SCADAMasterServer

/-- N successive polls for one outstation, each feeding
`read_measurements_from_log` a log file whose freshly appended last line is
the next sample — the runtime situation where the RTU appends one sample per
tick and the master reads the last line each poll. -/
def masterIngest (st : MasterState α) (xs : List α) (rtu_id : ℕ) :
    MasterState α :=
  xs.foldl
    (fun acc x =>
      (SCADAMasterServer.read_measurements_from_log acc [some x] rtu_id).2) st

/-! ## REST API (`scada_master.py`, Flask routes) -/

/-- Python's clamping of one slice index to `0..len`. -/
def pySliceIdx (len : ℕ) (i : ℤ) : ℕ :=
  if i < 0 then ((len : ℤ) + i).toNat else min i.toNat len

/-- Python's `l[start:stop]` for integer indices. -/
def pySlice (l : List β) (start stop : ℤ) : List β :=
  (l.take (pySliceIdx l.length stop)).drop (pySliceIdx l.length start)

/-- The response of the `/api/measurements/<rtu_id>` route. -/
structure MeasurementsResponse (α : Type) where
  rtu_id : ℕ
  total_records : ℕ
  limit : ℤ
  offset : ℤ
  measurements : List α
deriving DecidableEq

namespace Api

/-- The `get_measurements` Flask route: fetch that RTU's history
(`.get(rtu_id, [])`) and return `measurements[offset:offset+limit]` with the
pagination metadata (`limit`/`offset` come from the query string as ints). -/
def get_measurements (st : MasterState α) (rtu_id : ℕ) (limit offset : ℤ) :
    MeasurementsResponse α :=
  let ms := getAssocD st.measurement_data rtu_id
  { rtu_id := rtu_id
    total_records := ms.length
    limit := limit
    offset := offset
    measurements := pySlice ms offset (offset + limit) }

end Api

/-! ## Monitoring / logger (`data_logger.py`) -/

/-- The `'global'` entry of `DataLogger.stats` (the only key the source ever
uses); the min/max/avg dicts stay empty and are omitted. -/
structure LoggerStats where
  total_records : ℕ
  errors : ℕ
  last_update : Option ℕ
deriving DecidableEq

/-- One line of the audit log `scada_status.jsonl` as written by
`_process_measurements`: a timestamp plus the polled snapshot, verbatim. -/
structure StatusLogEntry (σ : Type) where
  timestamp : ℕ
  data : σ
deriving DecidableEq

/-- State owned by a `DataLogger`: its stats and the audit-log file, whose
lines are `none` when they would fail `json.loads` on read-back. -/
structure LoggerState (σ : Type) where
  stats_global : LoggerStats
  audit_log : List (Option (StatusLogEntry σ))
deriving DecidableEq

/-- The outcome of `requests.get(... /api/status)`: a `RequestException`, or
a response with a status code and body. -/
inductive PollResponse (σ : Type)
  | failure
  | response (code : ℕ) (body : σ)
deriving DecidableEq

/-- Whether the response takes the success branch (`status_code == 200`). -/
def PollResponse.isSuccess : PollResponse σ → Bool
  | .response 200 _ => true
  | _ => false

namespace DataLogger

/-- `DataLogger._process_measurements`: append `{'timestamp': now, 'data': data}`
to the audit log (the append is best-effort; the byte sink is modelled as
succeeding), then increment `total_records` and set `last_update`. -/
def process_measurements (now : ℕ) (data : σ) (st : LoggerState σ) :
    LoggerState σ :=
  { audit_log := st.audit_log ++ [some { timestamp := now, data := data }]
    stats_global :=
      { st.stats_global with
        total_records := st.stats_global.total_records + 1
        last_update := some now } }

/-- `DataLogger.poll_scada_server`: on a 200 response process the snapshot
and return it; on any other status code, or on a `RequestException`,
increment `stats['global']['errors']` and return `None` without writing. -/
def poll_scada_server (now : ℕ) (resp : PollResponse σ) (st : LoggerState σ) :
    Option σ × LoggerState σ :=
  match resp with
  | PollResponse.response code body =>
      if code = 200 then (some body, process_measurements now body st)
      else
        (none,
         { st with stats_global :=
            { st.stats_global with errors := st.stats_global.errors + 1 } })
  | PollResponse.failure =>
      (none,
       { st with stats_global :=
          { st.stats_global with errors := st.stats_global.errors + 1 } })

/-- `DataLogger.get_statistics`: a pure read of the stats. -/
def get_statistics (now : ℕ) (st : LoggerState σ) : ℕ × LoggerStats :=
  (now, st.stats_global)

end DataLogger

/-- A Python exception escaping a Flask route body; Flask answers such an
uncaught exception with an HTTP 500 error response. -/
inductive PyExc
  | nameError
deriving DecidableEq

namespace Api

/-- The `get_logs` Flask route as written in the source: its first statement,
`limit = request.args.get('limit', 50, type=int)`, evaluates the name
`request`, but `data_logger.py` only does `from flask import Flask, jsonify`
— `request` is never imported — so every call raises `NameError` right
there, outside and before the `try` block that would read the audit log.
The uncaught exception becomes an HTTP 500 response: no log line is read,
no entries are returned, the requested limit is never consulted, and the
logger's state is untouched. -/
def get_logs (limit : ℕ) (st : LoggerState σ) :
    Except PyExc (List (StatusLogEntry σ)) × LoggerState σ :=
  (Except.error PyExc.nameError, st)

end Api

/-! ## Helper lemmas -/

lemma clamp_lower (lo hi x : ℚ) : lo ≤ clamp lo hi x := le_max_left lo _

lemma clamp_upper (lo hi x : ℚ) (h : lo ≤ hi) : clamp lo hi x ≤ hi :=
  max_le h (min_le_left hi x)

lemma boundedAppend_drop (cap : ℕ) (ys : List β) (x : β) :
    boundedAppend cap (ys.drop (ys.length - cap)) x
      = (ys ++ [x]).drop (ys.length + 1 - cap) := by
  unfold boundedAppend
  have hdl : (ys.drop (ys.length - cap)).length = ys.length - (ys.length - cap) :=
    List.length_drop _ _
  by_cases hc : cap ≤ ys.length
  · have hlen : (ys.drop (ys.length - cap) ++ [x]).length = cap + 1 := by
      simp only [List.length_append, hdl, List.length_singleton]; omega
    rw [if_pos (by omega), hlen]
    rcases Nat.eq_zero_or_pos cap with hcap0 | hcappos
    · subst hcap0
      have h1 : ys.drop (ys.length - 0) = [] := by
        simp [List.drop_length]
      simp [h1, List.drop_eq_nil_of_le, hc]
    · have h1 : (ys.drop (ys.length - cap) ++ [x]).drop (cap + 1 - cap)
          = (ys.drop (ys.length - cap)).drop 1 ++ [x] := by
        have : cap + 1 - cap = 1 := by omega
        rw [this, List.drop_append_of_le_length (by omega)]
      rw [h1, List.drop_drop]
      rw [List.drop_append_of_le_length (by omega)]
      congr 2
      omega
  · have h0 : ys.length - cap = 0 := by omega
    rw [h0, List.drop_zero]
    rw [if_neg (by simp only [List.length_append, List.length_singleton]; omega)]
    have h1 : ys.length + 1 - cap = 0 := by omega
    rw [h1, List.drop_zero]

lemma boundedAppend_foldl (cap : ℕ) :
    ∀ (xs ys : List β),
      xs.foldl (boundedAppend cap) (ys.drop (ys.length - cap))
        = (ys ++ xs).drop ((ys ++ xs).length - cap) := by
  intro xs
  induction xs with
  | nil => intro ys; simp
  | cons x xs ih =>
      intro ys
      rw [List.foldl_cons, boundedAppend_drop]
      have h1 := ih (ys ++ [x])
      simp only [List.length_append, List.length_singleton, List.append_assoc,
        List.singleton_append] at h1 ⊢
      exact h1

lemma lookup_setAssoc_self (l : List (ℕ × β)) (k : ℕ) (v : β) :
    lookupAssoc (setAssoc l k v) k = some v := by
  induction l with
  | nil => simp [setAssoc, lookupAssoc]
  | cons p rest ih =>
      obtain ⟨k', v'⟩ := p
      by_cases h : k' = k
      · subst h; simp [setAssoc, lookupAssoc]
      · simp [setAssoc, lookupAssoc, h, ih]

lemma lookup_setAssoc_ne (l : List (ℕ × β)) (k k'' : ℕ) (v : β) (h : k'' ≠ k) :
    lookupAssoc (setAssoc l k v) k'' = lookupAssoc l k'' := by
  have h' : ¬ k = k'' := fun hh => h hh.symm
  induction l with
  | nil => simp [setAssoc, lookupAssoc, h']
  | cons p rest ih =>
      obtain ⟨k', v'⟩ := p
      by_cases hk : k' = k
      · subst hk
        simp [setAssoc, lookupAssoc, h']
      · simp only [setAssoc, if_neg hk, lookupAssoc]
        by_cases hk2 : k' = k''
        · simp [hk2]
        · simp [hk2, ih]

lemma read_log_data (st : MasterState α) (x : α) (rtu_id : ℕ) :
    (SCADAMasterServer.read_measurements_from_log st [some x] rtu_id).2.measurement_data
      = setAssoc st.measurement_data rtu_id
          (boundedAppend 1000 (getAssocD st.measurement_data rtu_id) x) := rfl

lemma read_log_outstations (st : MasterState α) (lf : List (Option α)) (rtu_id : ℕ) :
    (SCADAMasterServer.read_measurements_from_log st lf rtu_id).2.outstations
      = st.outstations := by
  unfold SCADAMasterServer.read_measurements_from_log
  cases h : lf.getLast? with
  | none => rfl
  | some o => cases o <;> rfl

lemma read_log_last_update (st : MasterState α) (lf : List (Option α)) (rtu_id : ℕ) :
    (SCADAMasterServer.read_measurements_from_log st lf rtu_id).2.last_update
      = st.last_update := by
  unfold SCADAMasterServer.read_measurements_from_log
  cases h : lf.getLast? with
  | none => rfl
  | some o => cases o <;> rfl

lemma read_log_fst (st : MasterState α) (lf : List (Option α)) (rtu_id : ℕ) :
    (SCADAMasterServer.read_measurements_from_log st lf rtu_id).1 = latestLine lf := by
  unfold SCADAMasterServer.read_measurements_from_log latestLine
  cases h : lf.getLast? with
  | none => rfl
  | some o => cases o <;> rfl

lemma getAssocD_setAssoc_self (l : List (ℕ × List β)) (k : ℕ) (v : List β) :
    getAssocD (setAssoc l k v) k = v := by
  unfold getAssocD
  rw [lookup_setAssoc_self]
  rfl

lemma masterIngest_data :
    ∀ (xs : List α) (st : MasterState α) (rtu_id : ℕ) (ys : List α),
      getAssocD st.measurement_data rtu_id = ys.drop (ys.length - 1000) →
      getAssocD (masterIngest st xs rtu_id).measurement_data rtu_id
        = (ys ++ xs).drop ((ys ++ xs).length - 1000) := by
  intro xs
  induction xs with
  | nil =>
      intro st rtu_id ys h
      simpa [masterIngest] using h
  | cons x xs ih =>
      intro st rtu_id ys h
      have hstep :
          getAssocD (SCADAMasterServer.read_measurements_from_log st [some x]
              rtu_id).2.measurement_data rtu_id
            = (ys ++ [x]).drop ((ys ++ [x]).length - 1000) := by
        rw [read_log_data, getAssocD_setAssoc_self, h, boundedAppend_drop]
        simp [List.length_append]
      have htail := ih (SCADAMasterServer.read_measurements_from_log st [some x]
        rtu_id).2 rtu_id (ys ++ [x]) hstep
      simp only [List.append_assoc, List.singleton_append] at htail
      simpa [masterIngest, List.foldl_cons] using htail

lemma statusFold_preserves (logs : ℕ → List (Option α)) :
    ∀ (cfgs : List (ℕ × OutstationConfig)) (st : MasterState α),
      (SCADAMasterServer.statusFold logs cfgs st).2.outstations = st.outstations ∧
      (SCADAMasterServer.statusFold logs cfgs st).2.last_update = st.last_update := by
  intro cfgs
  induction cfgs with
  | nil => intro st; exact ⟨rfl, rfl⟩
  | cons idc rest ih =>
      intro st
      obtain ⟨id, c⟩ := idc
      have h1 := ih (SCADAMasterServer.read_measurements_from_log st (logs id) id).2
      simp only [SCADAMasterServer.statusFold]
      exact ⟨h1.1.trans (read_log_outstations st (logs id) id),
             h1.2.trans (read_log_last_update st (logs id) id)⟩

lemma statusFold_entries (logs : ℕ → List (Option α)) :
    ∀ (cfgs : List (ℕ × OutstationConfig)) (st : MasterState α),
      (SCADAMasterServer.statusFold logs cfgs st).1 = cfgs.map (fun idc =>
        (idc.1,
         { name := idc.2.name, host := idc.2.host, port := idc.2.port
           connection_status := idc.2.connection_status
           last_update := lookupAssoc st.last_update idc.1
           latest_measurement := latestLine (logs idc.1) })) := by
  intro cfgs
  induction cfgs with
  | nil => intro st; rfl
  | cons idc rest ih =>
      intro st
      obtain ⟨id, c⟩ := idc
      simp only [SCADAMasterServer.statusFold, List.map_cons]
      rw [ih (SCADAMasterServer.read_measurements_from_log st (logs id) id).2,
          read_log_last_update, read_log_fst]

lemma lookup_foldl_setAssoc_stable (now : ℕ) :
    ∀ (ids : List (ℕ × OutstationConfig)) (lu : List (ℕ × ℕ)) (id : ℕ),
      lookupAssoc lu id = some now →
      lookupAssoc (ids.foldl (fun lu idc => setAssoc lu idc.1 now) lu) id
        = some now := by
  intro ids
  induction ids with
  | nil => intro lu id h; exact h
  | cons idc rest ih =>
      intro lu id h
      rw [List.foldl_cons]
      apply ih
      by_cases hk : idc.1 = id
      · rw [hk, lookup_setAssoc_self]
      · rw [lookup_setAssoc_ne _ _ _ _ (fun hh => hk hh.symm)]
        exact h

lemma lookup_foldl_setAssoc_mem (now : ℕ) :
    ∀ (ids : List (ℕ × OutstationConfig)) (lu : List (ℕ × ℕ)) (id : ℕ),
      id ∈ ids.map Prod.fst →
      lookupAssoc (ids.foldl (fun lu idc => setAssoc lu idc.1 now) lu) id
        = some now := by
  intro ids
  induction ids with
  | nil => intro lu id h; simp at h
  | cons idc rest ih =>
      intro lu id h
      rw [List.foldl_cons]
      rw [List.map_cons] at h
      rcases List.mem_cons.mp h with he | hm
      · apply lookup_foldl_setAssoc_stable
        rw [he, lookup_setAssoc_self]
      · exact ih _ id hm

lemma pySlice_nonneg (l : List β) (o k : ℤ) (ho : 0 ≤ o) (hk : 0 ≤ k) :
    pySlice l o (o + k) = (l.drop o.toNat).take k.toNat := by
  unfold pySlice pySliceIdx
  rw [if_neg (by omega), if_neg (by omega)]
  have h3 : (o + k).toNat = o.toNat + k.toNat := by omega
  rw [h3]
  by_cases ha : o.toNat ≤ l.length
  · rw [min_eq_left ha]
    have htake : l.take (min (o.toNat + k.toNat) l.length)
        = l.take (o.toNat + k.toNat) := by
      rw [List.take_eq_take, min_assoc, min_self]
    rw [htake, List.drop_take]
    congr 1
    omega
  · have hn : ¬ o.toNat ≤ l.length := ha
    rw [min_eq_right (by omega), min_eq_right (by omega)]
    rw [List.take_length, List.drop_length]
    rw [List.drop_eq_nil_of_le (by omega)]
    simp

lemma update_measurements_history (r : Ranges) (rtu_id : ℕ) (p : Perturb)
    (st : AgentState) :
    (DNP3OutstationRTU.update_measurements r rtu_id p st).2.measurement_history
      = boundedAppend 100 st.measurement_history
          (TransformerSimulator.get_measurements r rtu_id st.sim p).1 := rfl

lemma update_measurements_log (r : Ranges) (rtu_id : ℕ) (p : Perturb)
    (st : AgentState) :
    (DNP3OutstationRTU.update_measurements r rtu_id p st).2.log
      = st.log ++ [(TransformerSimulator.get_measurements r rtu_id st.sim p).1] := rfl

lemma loopRun_log_length (r : Ranges) (rtu_id : ℕ) :
    ∀ (ps : List Perturb) (st : AgentState),
      (DNP3OutstationRTU.loopRun r rtu_id st ps).log.length
        = st.log.length + ps.length := by
  intro ps
  induction ps with
  | nil => intro st; simp [DNP3OutstationRTU.loopRun]
  | cons p ps ih =>
      intro st
      have h := ih (DNP3OutstationRTU.update_measurements r rtu_id p st).2
      simp only [DNP3OutstationRTU.loopRun, List.foldl_cons] at h ⊢
      rw [h, update_measurements_log]
      simp only [List.length_append, List.length_cons, List.length_nil,
        List.length_singleton]
      omega

lemma loopRun_history_ring (r : Ranges) (rtu_id : ℕ) :
    ∀ (ps : List Perturb) (st : AgentState),
      st.measurement_history = st.log.drop (st.log.length - 100) →
      (DNP3OutstationRTU.loopRun r rtu_id st ps).measurement_history
        = (DNP3OutstationRTU.loopRun r rtu_id st ps).log.drop
            ((DNP3OutstationRTU.loopRun r rtu_id st ps).log.length - 100) := by
  intro ps
  induction ps with
  | nil => intro st h; exact h
  | cons p ps ih =>
      intro st h
      simp only [DNP3OutstationRTU.loopRun, List.foldl_cons] at ih ⊢
      apply ih
      rw [update_measurements_history, update_measurements_log, h,
          boundedAppend_drop]
      simp [List.length_append]

/-! ## Claims -/

/-- Claim C1: for every configured range with min ≤ max, each DeviceState
field (voltage, current, frequency, temperature) lies within its configured
[min, max] range after initialization (whose `random.uniform` draws land in
range by that library's contract, here hypotheses) and after every
`get_measurements` tick of a run of any length — each perturbation is
clamped back into range, not rejected. -/
theorem c1_fields_stay_in_range (r : Ranges)
    (h1 : r.min_voltage ≤ r.max_voltage) (h2 : r.min_current ≤ r.max_current)
    (h3 : r.min_freq ≤ r.max_freq) (h4 : r.min_temp ≤ r.max_temp) :
    (∀ v i f t : ℚ,
        r.min_voltage ≤ v → v ≤ r.max_voltage →
        r.min_current ≤ i → i ≤ r.max_current →
        r.min_freq ≤ f → f ≤ r.max_freq →
        r.min_temp ≤ t → t ≤ r.max_temp →
        InRange r (TransformerSimulator.init v i f t)) ∧
    (∀ (rtu_id : ℕ) (s : SimState) (p : Perturb),
        InRange r (TransformerSimulator.get_measurements r rtu_id s p).2) ∧
    (∀ (rtu_id : ℕ) (s0 : SimState) (ps : List Perturb), ps ≠ [] →
        InRange r (TransformerSimulator.run r rtu_id s0 ps)) := by
  have hstep : ∀ (rtu_id : ℕ) (s : SimState) (p : Perturb),
      InRange r (TransformerSimulator.get_measurements r rtu_id s p).2 := by
    intro rtu_id s p
    exact ⟨clamp_lower _ _ _, clamp_upper _ _ _ h1, clamp_lower _ _ _,
      clamp_upper _ _ _ h2, clamp_lower _ _ _, clamp_upper _ _ _ h3,
      clamp_lower _ _ _, clamp_upper _ _ _ h4⟩
  refine ⟨?_, hstep, ?_⟩
  · intro v i f t hv1 hv2 hi1 hi2 hf1 hf2 ht1 ht2
    exact ⟨hv1, hv2, hi1, hi2, hf1, hf2, ht1, ht2⟩
  · intro rtu_id s0 ps hne
    have hrun : ∀ (ps' : List Perturb) (s : SimState), InRange r s →
        InRange r (TransformerSimulator.run r rtu_id s ps') := by
      intro ps'
      induction ps' with
      | nil => intro s h; exact h
      | cons p ps' ih =>
          intro s h
          simp only [TransformerSimulator.run, List.foldl_cons] at ih ⊢
          exact ih _ (hstep rtu_id s p)
    rcases ps with _ | ⟨p, ps⟩
    · exact absurd rfl hne
    · have h := hrun ps _ (hstep rtu_id s0 p)
      simpa [TransformerSimulator.run, List.foldl_cons] using h

/-- Witness for C1: a concrete tick at the default ranges (taken from a
deliberately out-of-range state) lands in range, and so does a concrete
one-tick run. -/
theorem c1_fields_stay_in_range_witness :
    InRange defaultRanges
      (TransformerSimulator.get_measurements defaultRanges 1
        { voltage := 0, current := 900, frequency := 60, temperature := 50 }
        { dv := 1/2, di := 5, df := 1/50, dt := 3/10 }).2 ∧
    InRange defaultRanges
      (TransformerSimulator.run defaultRanges 1
        { voltage := 0, current := 0, frequency := 0, temperature := 0 }
        [{ dv := 0, di := 0, df := 0, dt := 0 }]) :=
  ⟨(c1_fields_stay_in_range defaultRanges (by norm_num [defaultRanges])
      (by norm_num [defaultRanges]) (by norm_num [defaultRanges])
      (by norm_num [defaultRanges])).2.1 1 _ _,
   (c1_fields_stay_in_range defaultRanges (by norm_num [defaultRanges])
      (by norm_num [defaultRanges]) (by norm_num [defaultRanges])
      (by norm_num [defaultRanges])).2.2 1 _ _ (by simp)⟩

/-- Claim C9: in every emitted sample, voltage, current and temperature are
rounded to 2 decimal places and frequency to 3 at emission time, while the
generator's stored internal state keeps the raw clamped random-walk values,
unrounded; the next tick (via `run`/`get_measurements`) perturbs the stored
unrounded value, not the emitted rounded one. -/
theorem c9_rounding_at_emission (r : Ranges) (rtu_id : ℕ) (s : SimState)
    (p : Perturb) :
    (TransformerSimulator.get_measurements r rtu_id s p).1.voltage
        = pyRound 2 (TransformerSimulator.get_measurements r rtu_id s p).2.voltage ∧
    (TransformerSimulator.get_measurements r rtu_id s p).1.current
        = pyRound 2 (TransformerSimulator.get_measurements r rtu_id s p).2.current ∧
    (TransformerSimulator.get_measurements r rtu_id s p).1.temperature
        = pyRound 2 (TransformerSimulator.get_measurements r rtu_id s p).2.temperature ∧
    (TransformerSimulator.get_measurements r rtu_id s p).1.frequency
        = pyRound 3 (TransformerSimulator.get_measurements r rtu_id s p).2.frequency ∧
    (TransformerSimulator.get_measurements r rtu_id s p).2.voltage
        = clamp r.min_voltage r.max_voltage (s.voltage + p.dv) ∧
    (TransformerSimulator.get_measurements r rtu_id s p).2.current
        = clamp r.min_current r.max_current (s.current + p.di) ∧
    (TransformerSimulator.get_measurements r rtu_id s p).2.frequency
        = clamp r.min_freq r.max_freq (s.frequency + p.df) ∧
    (TransformerSimulator.get_measurements r rtu_id s p).2.temperature
        = clamp r.min_temp r.max_temp (s.temperature + p.dt) :=
  ⟨rfl, rfl, rfl, rfl, rfl, rfl, rfl, rfl⟩

/-- Claim C5: for every valid (nonnegative) voltage/current pair — in
particular any pair produced on a tick when the configured minima are
nonnegative — the computed powers satisfy real_power ≤ apparent_power, the
radicand of `reactive_power = (apparent² − real²) ** 0.5` is nonnegative, and
the square root squares back to apparent² − real², so the power-factor
identity holds exactly. -/
theorem c5_power_identity (v i : ℚ) (hv : 0 ≤ v) (hi : 0 ≤ i) :
    real_power v i ≤ apparent_power v i ∧
    0 ≤ reactive_radicand v i ∧
    Real.sqrt ((reactive_radicand v i : ℚ) : ℝ) ^ 2
      = ((apparent_power v i : ℚ) : ℝ) ^ 2 - ((real_power v i : ℚ) : ℝ) ^ 2 ∧
    (∀ (r : Ranges) (rtu_id : ℕ) (s : SimState) (p : Perturb),
        0 ≤ r.min_voltage → 0 ≤ r.min_current →
        0 ≤ (TransformerSimulator.get_measurements r rtu_id s p).2.voltage ∧
        0 ≤ (TransformerSimulator.get_measurements r rtu_id s p).2.current) := by
  have ha : 0 ≤ apparent_power v i := by
    unfold apparent_power
    positivity
  have hrad : 0 ≤ reactive_radicand v i := by
    unfold reactive_radicand real_power
    nlinarith [sq_nonneg (apparent_power v i)]
  refine ⟨?_, hrad, ?_, ?_⟩
  · unfold real_power
    linarith
  · rw [Real.sq_sqrt (by exact_mod_cast hrad)]
    unfold reactive_radicand
    push_cast
    ring
  · intro r rtu_id s p hminv hmini
    exact ⟨le_trans hminv (clamp_lower _ _ _), le_trans hmini (clamp_lower _ _ _)⟩

/-- Witness for C5 at the concrete pair (400 V, 500 A). -/
theorem c5_power_identity_witness :
    real_power 400 500 ≤ apparent_power 400 500 ∧
    0 ≤ reactive_radicand 400 500 :=
  ⟨(c5_power_identity 400 500 (by norm_num) (by norm_num)).1,
   (c5_power_identity 400 500 (by norm_num) (by norm_num)).2.1⟩

/-- Counterexample to claim C2 as stated: after 1001 successful polls for
outstation 1 (capacity 1000 at the coordinator), the retained history is not
the oldest 1000 entries by arrival order — the oldest entry is evicted. -/
theorem c2_oldest_retained_counterexample :
    getAssocD (masterIngest (SCADAMasterServer.initial ℕ)
        (List.range 1001) 1).measurement_data 1
      ≠ (List.range 1001).take 1000 := by
  have h := masterIngest_data (List.range 1001) (SCADAMasterServer.initial ℕ) 1 [] rfl
  simp only [List.nil_append] at h
  rw [h, List.length_range]
  intro heq
  have hh := congrArg List.head? heq
  rw [List.head?_drop] at hh
  have h1 : (List.range 1001)[(1001 - 1000 : ℕ)]? = some 1 := by
    simp [List.getElem?_range]
  have h2 : ((List.range 1001).take 1000).head? = some 0 := by
    rw [List.head?_take]
    simp [List.head?_range]
  rw [h1, h2] at hh
  exact absurd (Option.some.inj hh) (by decide)

/-- Claim C2, amended: after N > capacity successful polls for one
outstation, the history has length exactly capacity and is FIFO-evicted on
overflow, and the NEWEST capacity entries by arrival order are retained (the
oldest are evicted) — at the coordinator (capacity 1000, modelled by
`masterIngest` feeding one fresh sample per poll) and at the agent ring
(capacity 100, the last 100 of all emitted samples, i.e. of the append-only
log). -/
theorem c2_history_bounded_amended (xs : List ℕ) (hxs : 1000 < xs.length)
    (r : Ranges) (rtu_id : ℕ) (sim : SimState) (ps : List Perturb)
    (hps : 100 < ps.length) :
    (getAssocD (masterIngest (SCADAMasterServer.initial ℕ) xs 1).measurement_data 1
        = xs.drop (xs.length - 1000) ∧
     (getAssocD (masterIngest (SCADAMasterServer.initial ℕ) xs 1).measurement_data 1).length
        = 1000) ∧
    ((DNP3OutstationRTU.loopRun r rtu_id (DNP3OutstationRTU.init sim) ps).measurement_history
        = (DNP3OutstationRTU.loopRun r rtu_id (DNP3OutstationRTU.init sim) ps).log.drop
            ((DNP3OutstationRTU.loopRun r rtu_id (DNP3OutstationRTU.init sim) ps).log.length - 100) ∧
     (DNP3OutstationRTU.loopRun r rtu_id (DNP3OutstationRTU.init sim) ps).log.length
        = ps.length ∧
     (DNP3OutstationRTU.loopRun r rtu_id (DNP3OutstationRTU.init sim) ps).measurement_history.length
        = 100) := by
  constructor
  · have h := masterIngest_data xs (SCADAMasterServer.initial ℕ) 1 [] rfl
    simp only [List.nil_append] at h
    refine ⟨h, ?_⟩
    rw [h, List.length_drop]
    omega
  · have hlog := loopRun_log_length r rtu_id ps (DNP3OutstationRTU.init sim)
    have hlog' : (DNP3OutstationRTU.loopRun r rtu_id
        (DNP3OutstationRTU.init sim) ps).log.length = ps.length := by
      simpa [DNP3OutstationRTU.init] using hlog
    have hring := loopRun_history_ring r rtu_id ps (DNP3OutstationRTU.init sim) rfl
    refine ⟨hring, hlog', ?_⟩
    rw [hring, List.length_drop, hlog']
    omega

/-- Witness for C2 (amended) at 1001 coordinator polls and 101 agent ticks. -/
theorem c2_history_bounded_amended_witness :
    1000 < (List.range 1001).length ∧
    100 < (List.replicate 101 ({ dv := 0, di := 0, df := 0, dt := 0 } : Perturb)).length ∧
    (getAssocD (masterIngest (SCADAMasterServer.initial ℕ)
        (List.range 1001) 1).measurement_data 1).length = 1000 :=
  ⟨by simp, by simp,
   ((c2_history_bounded_amended (List.range 1001) (by simp) defaultRanges 1
      { voltage := 0, current := 0, frequency := 0, temperature := 0 }
      (List.replicate 101 { dv := 0, di := 0, df := 0, dt := 0 })
      (by simp)).1).2⟩

/-- Counterexample to claim C3 as stated: on the freshly configured
coordinator with a one-line RTU log, `get_current_status` changes the
coordinator-owned measurement histories — it is not a pure read. -/
theorem c3_pure_read_counterexample :
    (SCADAMasterServer.get_current_status 0 (fun _ => [some 7])
        (SCADAMasterServer.initial ℕ)).2.measurement_data
      ≠ (SCADAMasterServer.initial ℕ).measurement_data := by
  decide

/-- Claim C3, amended: `get_current_status` returns, for every configured
outstation in registry order, its config together with the most recent
sample parsed from that outstation's log (the last line, when well-formed)
and the stored last-update entry; it leaves the outstation records and the
last-update map unchanged, but it is not a pure read: each
`read_measurements_from_log` call it makes appends the freshly read sample
to that outstation's bounded measurement history. -/
theorem c3_snapshot_amended (now : ℕ) (logs : ℕ → List (Option α))
    (st : MasterState α) :
    (SCADAMasterServer.get_current_status now logs st).2.outstations
        = st.outstations ∧
    (SCADAMasterServer.get_current_status now logs st).2.last_update
        = st.last_update ∧
    (SCADAMasterServer.get_current_status now logs st).1.outstations
        = st.outstations.map (fun idc =>
            (idc.1,
             { name := idc.2.name, host := idc.2.host, port := idc.2.port
               connection_status := idc.2.connection_status
               last_update := lookupAssoc st.last_update idc.1
               latest_measurement := latestLine (logs idc.1) })) :=
  ⟨(statusFold_preserves logs st.outstations st).1,
   (statusFold_preserves logs st.outstations st).2,
   statusFold_entries logs st.outstations st⟩

/-- Counterexample to claim C4 as stated: calling start() twice on a fresh
agent and on a fresh coordinator leaves two spawned tick/poll loops each,
not exactly one. -/
theorem c4_start_idempotent_counterexample :
    (DNP3OutstationRTU.start (DNP3OutstationRTU.start
        { running := false, outstation_running := false, loop_count := 0 })).loop_count
      ≠ 1 ∧
    (SCADAMasterServer.start (SCADAMasterServer.start
        { running := false, loop_count := 0 })).loop_count ≠ 1 := by
  decide

/-- Claim C4, amended: `start()` is not idempotent on either service — each
call sets the running flag but unconditionally spawns one more loop thread,
so after a second call two loops are active (duplicate tick work per
interval), one more than before per call. -/
theorem c4_start_spawns_duplicate_loops (a : DNP3OutstationRTU.RunState)
    (m : SCADAMasterServer.ServerRunState) :
    (DNP3OutstationRTU.start a).running = true ∧
    (DNP3OutstationRTU.start a).loop_count = a.loop_count + 1 ∧
    (DNP3OutstationRTU.start (DNP3OutstationRTU.start a)).loop_count
      = a.loop_count + 2 ∧
    (SCADAMasterServer.start m).running = true ∧
    (SCADAMasterServer.start m).loop_count = m.loop_count + 1 ∧
    (SCADAMasterServer.start (SCADAMasterServer.start m)).loop_count
      = m.loop_count + 2 :=
  ⟨rfl, rfl, rfl, rfl, rfl, rfl⟩

/-- Claim C6: the measurements endpoint returns
`history[offset:offset+limit]` in stored (oldest-to-newest arrival) order,
i.e. drop `offset` then take `limit`; an offset at or past the end yields an
empty slice rather than an error; and pages (limit 10, offset 0) and
(limit 10, offset 10) concatenate to the first 20 entries, hence are
disjoint index ranges in order. -/
theorem c6_pagination (st : MasterState α) (rtu_id : ℕ) (limit offset : ℤ)
    (hl : 0 ≤ limit) (ho : 0 ≤ offset) :
    (Api.get_measurements st rtu_id limit offset).measurements
      = ((getAssocD st.measurement_data rtu_id).drop offset.toNat).take limit.toNat ∧
    ((getAssocD st.measurement_data rtu_id).length ≤ offset.toNat →
      (Api.get_measurements st rtu_id limit offset).measurements = []) ∧
    (Api.get_measurements st rtu_id 10 0).measurements
        ++ (Api.get_measurements st rtu_id 10 10).measurements
      = (getAssocD st.measurement_data rtu_id).take 20 := by
  have hmain : ∀ l o : ℤ, 0 ≤ l → 0 ≤ o →
      (Api.get_measurements st rtu_id l o).measurements
        = ((getAssocD st.measurement_data rtu_id).drop o.toNat).take l.toNat := by
    intro l o hl' ho'
    unfold Api.get_measurements
    exact pySlice_nonneg _ o l ho' hl'
  refine ⟨hmain limit offset hl ho, ?_, ?_⟩
  · intro hlen
    rw [hmain limit offset hl ho, List.drop_eq_nil_of_le hlen]
    simp
  · rw [hmain 10 0 (by norm_num) (by norm_num),
        hmain 10 10 (by norm_num) (by norm_num)]
    have h0 : ((0 : ℤ)).toNat = 0 := rfl
    have h10 : ((10 : ℤ)).toNat = 10 := rfl
    rw [h0, h10, List.drop_zero]
    rw [show (20 : ℕ) = 10 + 10 from rfl, List.take_add]

/-- Witness for C6 on a concrete 25-entry history. -/
theorem c6_pagination_witness :
    (0 : ℤ) ≤ 3 ∧ (0 : ℤ) ≤ 5 ∧
    (Api.get_measurements
        ({ master_id := 1, outstations := [], measurement_data := [(1, List.range 25)],
           last_update := [] } : MasterState ℕ) 1 3 5).measurements
      = ((getAssocD [(1, List.range 25)] 1).drop 5).take 3 :=
  ⟨by norm_num, by norm_num,
   (c6_pagination
      ({ master_id := 1, outstations := [], measurement_data := [(1, List.range 25)],
         last_update := [] } : MasterState ℕ) 1 3 5
      (by norm_num) (by norm_num)).1⟩

/-- Counterexample to claim C7 as stated: on an audit log with 5 well-formed
lines and 1 malformed line, recent_logs(10) does not return the 5
well-formed entries — the route raises NameError before reading the log, so
the call produces an error response and no entries at all. -/
theorem c7_skip_malformed_counterexample :
    (Api.get_logs 10
      ({ stats_global := { total_records := 5, errors := 0, last_update := none }
         audit_log := [some { timestamp := 0, data := 0 },
                       some { timestamp := 1, data := 1 },
                       some { timestamp := 2, data := 2 },
                       some { timestamp := 3, data := 3 },
                       some { timestamp := 4, data := 4 },
                       none] } : LoggerState ℕ)).1
      = Except.error PyExc.nameError ∧
    (Api.get_logs 10
      ({ stats_global := { total_records := 5, errors := 0, last_update := none }
         audit_log := [some { timestamp := 0, data := 0 },
                       some { timestamp := 1, data := 1 },
                       some { timestamp := 2, data := 2 },
                       some { timestamp := 3, data := 3 },
                       some { timestamp := 4, data := 4 },
                       none] } : LoggerState ℕ)).1
      ≠ Except.ok [{ timestamp := 0, data := 0 }, { timestamp := 1, data := 1 },
                   { timestamp := 2, data := 2 }, { timestamp := 3, data := 3 },
                   { timestamp := 4, data := 4 }] :=
  ⟨rfl, fun h => Except.noConfusion h⟩

/-- Claim C7, amended: every call to `recent_logs(limit)` fails — the route
references flask's `request` without ever importing it, so it raises
`NameError` (surfaced as an HTTP 500) before the log-reading `try` block can
run, for every audit-log content and every limit; no entries are returned,
and the logger's state — in particular `statistics().error_count` — is
unaffected. -/
theorem c7_get_logs_amended (limit : ℕ) (st : LoggerState σ) (now : ℕ) :
    (Api.get_logs limit st).1 = Except.error PyExc.nameError ∧
    (Api.get_logs limit st).2 = st ∧
    DataLogger.get_statistics now (Api.get_logs limit st).2
      = DataLogger.get_statistics now st :=
  ⟨rfl, rfl, rfl⟩

/-- Claim C8: `poll_scada_server` on a 200 response appends the snapshot
verbatim (wrapped with the poll timestamp) to the audit log, increments
total_records by one and leaves the error counter alone; on any failure
(`RequestException` or non-200 status) it increments error_count by one and
writes no log entry, leaving total_records alone — partial or malformed data
is never persisted. -/
theorem c8_poll_logging (now : ℕ) (st : LoggerState σ) (resp : PollResponse σ) :
    (∀ body : σ, resp = PollResponse.response 200 body →
      (DataLogger.poll_scada_server now resp st).2.audit_log
          = st.audit_log ++ [some { timestamp := now, data := body }] ∧
      (DataLogger.poll_scada_server now resp st).2.stats_global.total_records
          = st.stats_global.total_records + 1 ∧
      (DataLogger.poll_scada_server now resp st).2.stats_global.errors
          = st.stats_global.errors ∧
      (DataLogger.poll_scada_server now resp st).1 = some body) ∧
    (resp.isSuccess = false →
      (DataLogger.poll_scada_server now resp st).2.audit_log = st.audit_log ∧
      (DataLogger.poll_scada_server now resp st).2.stats_global.errors
          = st.stats_global.errors + 1 ∧
      (DataLogger.poll_scada_server now resp st).2.stats_global.total_records
          = st.stats_global.total_records ∧
      (DataLogger.poll_scada_server now resp st).1 = none) := by
  constructor
  · rintro body rfl
    refine ⟨?_, ?_, ?_, ?_⟩ <;>
      simp [DataLogger.poll_scada_server, DataLogger.process_measurements]
  · intro hfail
    cases resp with
    | failure => exact ⟨rfl, rfl, rfl, rfl⟩
    | response code body =>
        have hc : ¬ code = 200 := by
          intro h
          subst h
          exact absurd hfail (by simp [PollResponse.isSuccess])
        refine ⟨?_, ?_, ?_, ?_⟩ <;>
          simp [DataLogger.poll_scada_server, if_neg hc]

/-- Witness for C8: a concrete 200 response increments total_records and a
concrete connection failure increments error_count without writing. -/
theorem c8_poll_logging_witness :
    (DataLogger.poll_scada_server 3 (PollResponse.response 200 42)
        ({ stats_global := { total_records := 0, errors := 0, last_update := none }
           audit_log := [] } : LoggerState ℕ)).2.stats_global.total_records
      = 0 + 1 ∧
    (DataLogger.poll_scada_server 3 (PollResponse.failure)
        ({ stats_global := { total_records := 0, errors := 0, last_update := none }
           audit_log := [] } : LoggerState ℕ)).2.stats_global.errors
      = 0 + 1 ∧
    (DataLogger.poll_scada_server 3 (PollResponse.failure)
        ({ stats_global := { total_records := 0, errors := 0, last_update := none }
           audit_log := [] } : LoggerState ℕ)).2.audit_log = [] :=
  ⟨((c8_poll_logging 3
      ({ stats_global := { total_records := 0, errors := 0, last_update := none }
         audit_log := [] } : LoggerState ℕ) (PollResponse.response 200 42)).1
      42 rfl).2.1,
   ((c8_poll_logging 3
      ({ stats_global := { total_records := 0, errors := 0, last_update := none }
         audit_log := [] } : LoggerState ℕ) PollResponse.failure).2 rfl).2.1,
   ((c8_poll_logging 3
      ({ stats_global := { total_records := 0, errors := 0, last_update := none }
         audit_log := [] } : LoggerState ℕ) PollResponse.failure).2 rfl).1⟩

/-- Claim C10: one call to `poll_outstations` sets every configured
outstation's connection_status to CONNECTED and records a last-update
timestamp for every configured id; since nothing in the loop body can raise,
the `except` branch that would set ERROR is unreachable, and no outstation
ever comes out of a poll with ERROR status. -/
theorem c10_poll_all_connected (now : ℕ) (st : MasterState α) :
    (∀ p ∈ (SCADAMasterServer.poll_outstations now st).outstations,
        p.2.connection_status = ConnStatus.CONNECTED ∧
        p.2.connection_status ≠ ConnStatus.ERROR) ∧
    (∀ id ∈ st.outstations.map Prod.fst,
        lookupAssoc (SCADAMasterServer.poll_outstations now st).last_update id
          = some now) := by
  constructor
  · intro p hp
    simp only [SCADAMasterServer.poll_outstations, List.mem_map] at hp
    obtain ⟨idc, hmem, rfl⟩ := hp
    exact ⟨rfl, fun h => ConnStatus.noConfusion h⟩
  · intro id hid
    exact lookup_foldl_setAssoc_mem now st.outstations st.last_update id hid

/-- Witness for C10 on the freshly configured coordinator. -/
theorem c10_poll_all_connected_witness :
    lookupAssoc (SCADAMasterServer.poll_outstations 7
        (SCADAMasterServer.initial ℕ)).last_update 1 = some 7 ∧
    ((1, ({ name := "Substation_1", host := "rtu-substation-1", port := 20000,
            address := 10, connection_status := ConnStatus.CONNECTED }
          : OutstationConfig)) : ℕ × OutstationConfig).2.connection_status
      = ConnStatus.CONNECTED :=
  ⟨(c10_poll_all_connected 7 (SCADAMasterServer.initial ℕ)).2 1 (by decide),
   ((c10_poll_all_connected 7 (SCADAMasterServer.initial ℕ)).1
      ((1, { name := "Substation_1", host := "rtu-substation-1", port := 20000,
             address := 10, connection_status := ConnStatus.CONNECTED }))
      (by decide)).1⟩
